import Mathlib

/-!
Verification of the generation driver `gtl/generate_randomized_freepool.py`
from grailbio/base.

The driver is embedded shallowly as a pure function from its inputs (the
argument list, the interpreter path `sys.executable`, the script path
`sys.argv[0]`, and an oracle telling whether each `subprocess.check_call`
of the template-expansion engine succeeds) to an `Outcome`: the ordered
list of observable events (engine invocations and file writes) together
with an optional fatal error.
-/

set_option autoImplicit false
set_option maxRecDepth 100000

namespace FreepoolGen

/-- Character-list test that `pat` is a list-prefix of `l`
(the semantics of a Python anchored regex match of a literal). -/
def isPreOf : List Char → List Char → Bool
  | [], _ => true
  | _ :: _, [] => false
  | c :: cs, d :: ds => c = d && isPreOf cs ds

/-- Semantics of Python `re.match("^<flag>(.*)", arg)` for a literal flag
string: if `arg` starts with the flag, the capture group is everything
after it up to (excluding) the first newline, since `.` does not match
a newline; otherwise no match. -/
def capture (flag arg : String) : Option String :=
  if isPreOf flag.data arg.data then
    some (String.mk ((arg.data.drop flag.data.length).takeWhile (fun c => ¬ c = '\n')))
  else
    none

/-- The mutable locals of the argument-scanning loop in `main`
(`generate_randomized_freepool.py`, lines 14-25). -/
structure ParseState where
  output : Option String := none
  package : Option String := none
  generate_argv : List String := []
deriving DecidableEq, Repr

/-- One iteration of the loop `for arg in sys.argv[1:]` in `main`.
Note that the two `re.match` tests are sequential (no `elif`): an
argument matching `--package=` still reaches the `--output=` test and,
failing it, is appended to `generate_argv`. -/
def parseArg (s : ParseState) (arg : String) : ParseState :=
  let s1 :=
    match capture "--package=" arg with
    | some v => { s with package := some v }
    | none => s
  match capture "--output=" arg with
  | some v => { s1 with output := some v }
  | none => { s1 with generate_argv := s1.generate_argv ++ [arg] }

/-- The whole scanning loop over `sys.argv[1:]`. -/
def parseArgs (args : List String) : ParseState :=
  args.foldl parseArg {}

/-- Finish `posixpath.dirname` given the reversed head `p[:i]` (everything
up to and including the final slash): strip trailing slashes unless the
head consists only of slashes. -/
def dirnameHead (hrev : List Char) : List Char :=
  if hrev = [] then []
  else if hrev.all (fun c => c == '/') then hrev.reverse
  else (hrev.dropWhile (fun c => c == '/')).reverse

/-- `posixpath.dirname`: everything before the final slash, with trailing
slashes stripped from the head unless the head consists only of slashes;
empty when there is no slash. -/
def dirnameL (p : List Char) : List Char :=
  dirnameHead (p.reverse.dropWhile (fun c => ! (c == '/')))

/-- `os.path.dirname` on strings. -/
def dirname (p : String) : String :=
  String.mk (dirnameL p.data)

/-- `os.path.join a b` for POSIX paths (the two-argument uses in `main`). -/
def pathJoin (a b : String) : String :=
  if isPreOf ['/'] b.data then b
  else if a = "" then b
  else if a.data.getLast? = some '/' then a ++ b
  else a ++ "/" ++ b

/-- The fixed content written to `randomized_freepool_internal.s`
(`main`, lines 56-65), verbatim from the source. -/
def sContent : String :=
  "// Code generated by generate_randomized_freepool.py. DO NOT EDIT.\n\n// Dummy file to force the go compiler to honor go:linkname directives. See\n//\n// https://github.com/golang/go/issues/15006\n// http://www.alangpierce.com/blog/2016/03/17/adventures-in-go-accessing-unexported-functions/\n"

/-- The part of the glue-file f-string (`main`, lines 67-96) before the
`package ` keyword of line 2, verbatim from the source. -/
def gluePre : String :=
  "// Code generated by generate_randomized_freepool.py. DO NOT EDIT.\n"

/-- The part of the glue-file f-string (`main`, lines 67-96) after the
interpolated `{package}` of line 2, verbatim from the source. -/
def glueSuf : String :=
  "\n\n// This import is needed to use go:linkname.\nimport _ \"unsafe\"\n\n// The following functions are defined in go runtime.  To use them, we need to\n// import \"unsafe\", and elsewhere in this package, import \"C\" to force compiler\n// to recognize the \"go:linktime\" directive. Some of the details are explained\n// in the below blog post.\n//\n// procPin() pins the caller to the current processor, and returns the processor\n// id in range [0,GOMAXPROCS). procUnpin() undos the effect of procPin().\n//\n// http://www.alangpierce.com/blog/2016/03/17/adventures-in-go-accessing-unexported-functions/\n\n//go:linkname runtime_procPin sync.runtime_procPin\n//go:nosplit\nfunc runtime_procPin() int\n\n//go:linkname runtime_procUnpin sync.runtime_procUnpin\n//go:nosplit\nfunc runtime_procUnpin()\n\n//go:linkname fastrandn sync.fastrandn\nfunc fastrandn(n uint32) uint32\n"

/-- The content written to `randomized_freepool_internal.go`
(`main`, lines 67-96): the f-string, which interpolates the package name
into the `package` declaration on its second line.  The string is the
source text split exactly at the interpolation point. -/
def glueContent (package : String) : String :=
  gluePre ++ "package " ++ package ++ glueSuf

/-- An observable action of the driver: a `subprocess.check_call` of the
template-expansion engine with the given full command line, or a file
write with a path and content. -/
inductive Event where
  | runGenerate : List String → Event
  | writeFile : String → String → Event
deriving DecidableEq, Repr

/-- The result of one driver invocation: the ordered events it performed
and the fatal error it raised, if any. -/
structure Outcome where
  events : List Event
  err : Option String
deriving DecidableEq, Repr

/-- The first engine command line built by `main` (lines 41-45):
interpreter, `generate.py`, the `.go` output flag, the pass-through
arguments, and the optimized template `randomized_freepool.go.tpl`. -/
def cmdline1 (pyexe gtl_dir output : String) (gargs : List String) : List String :=
  [pyexe, pathJoin gtl_dir "generate.py", "--output=" ++ output ++ ".go"]
    ++ gargs ++ [pathJoin gtl_dir "randomized_freepool.go.tpl"]

/-- The second engine command line built by `main` (lines 46-54): same
shape with the `_race.go` output flag and the race-instrumented template
`randomized_freepool_race.go.tpl`. -/
def cmdline2 (pyexe gtl_dir output : String) (gargs : List String) : List String :=
  [pyexe, pathJoin gtl_dir "generate.py", "--output=" ++ output ++ "_race.go"]
    ++ gargs ++ [pathJoin gtl_dir "randomized_freepool_race.go.tpl"]

/-- The whole of `main`, shallowly embedded.  `engine` tells, for each
command line, whether the `subprocess.check_call` succeeds; `pyexe` is
`sys.executable` and `argv0` is `sys.argv[0]`.  Python truthiness of the
two parsed flags (`if not output or not package`) is `none` or the empty
string; the raise happens before any subprocess call or file write. -/
def runMain (engine : List String → Bool) (pyexe argv0 : String) (args : List String) : Outcome :=
  let st := parseArgs args
  match st.output, st.package with
  | some output, some package =>
    if output = "" ∨ package = "" then
      { events := [], err := some "--output and --package not set" }
    else
      let gtl_dir := dirname argv0
      let output_dir := if dirname output = "" then "." else dirname output
      let c1 := cmdline1 pyexe gtl_dir output st.generate_argv
      if engine c1 then
        let c2 := cmdline2 pyexe gtl_dir output st.generate_argv
        if engine c2 then
          { events :=
              [Event.runGenerate c1, Event.runGenerate c2,
               Event.writeFile (output_dir ++ "/randomized_freepool_internal.s") sContent,
               Event.writeFile (output_dir ++ "/randomized_freepool_internal.go")
                 (glueContent package)],
            err := none }
        else
          { events := [Event.runGenerate c1, Event.runGenerate c2],
            err := some "subprocess.CalledProcessError" }
      else
        { events := [Event.runGenerate c1],
          err := some "subprocess.CalledProcessError" }
  | _, _ => { events := [], err := some "--output and --package not set" }

/-- The command lines of the engine invocations in a trace, in order. -/
def generateCalls (evs : List Event) : List (List String) :=
  evs.filterMap (fun e =>
    match e with
    | Event.runGenerate c => some c
    | Event.writeFile _ _ => none)

/-- The file writes in a trace, in order, as (path, content) pairs. -/
def writesOf (evs : List Event) : List (String × String) :=
  evs.filterMap (fun e =>
    match e with
    | Event.runGenerate _ => none
    | Event.writeFile p c => some (p, c))

/-- The value of the last occurrence of a flag in an argument list, under
the matching semantics of `capture`. -/
def lastFlagValue (flag : String) (args : List String) : Option String :=
  (args.filterMap (capture flag)).getLast?

/-- Split a character list into lines at newline characters. -/
def splitLinesL (l : List Char) : List (List Char) :=
  match l with
  | [] => [[]]
  | c :: cs =>
    match splitLinesL cs with
    | [] => [[]]
    | r :: rs => if c = '\n' then [] :: r :: rs else (c :: r) :: rs

/-- Contiguous-sublist test on character lists. -/
def hasSubL (pat : List Char) : List Char → Bool
  | [] => pat.isEmpty
  | c :: cs => isPreOf pat (c :: cs) || hasSubL pat cs

/-- Canonical directory location of a directory string: the empty string
denotes the current working directory, written `"."`. -/
def dirLocation (d : String) : String :=
  if d = "" then "." else d

/-- Modelled from the spec: the template-expansion engine (`generate.py`,
part of this repository but not under `src/`) is the VariantGenerator; per
the spec it produces the source file at the output path it is given, which
the driver passes as the value of the `--output=` flag on the command
line.  The last occurrence wins, as with an argparse-style parser. -/
def engineOutputFile (cmd : List String) : Option String :=
  (cmd.filterMap (fun a =>
    if isPreOf ("--output=".data) a.data then
      some (String.mk (a.data.drop ("--output=".data.length)))
    else none)).getLast?

/-- All files produced by a trace: for each engine invocation the file the
modelled engine writes, and each file written directly by the driver. -/
def producedFiles (evs : List Event) : List String :=
  evs.foldr (fun e acc =>
    match e with
    | Event.runGenerate c =>
      match engineOutputFile c with
      | some f => f :: acc
      | none => acc
    | Event.writeFile p _ => p :: acc) []

/-! ### Lemmas about the argument-scanning loop -/

theorem parseArg_package (s : ParseState) (a : String) :
    (parseArg s a).package =
      match capture "--package=" a with
      | some v => some v
      | none => s.package := by
  unfold parseArg
  cases capture "--package=" a <;> cases capture "--output=" a <;> rfl

theorem parseArg_output (s : ParseState) (a : String) :
    (parseArg s a).output =
      match capture "--output=" a with
      | some v => some v
      | none => s.output := by
  unfold parseArg
  cases capture "--package=" a <;> cases capture "--output=" a <;> rfl

theorem parseArg_generate_argv (s : ParseState) (a : String) :
    (parseArg s a).generate_argv =
      if isPreOf ("--output=".data) a.data then s.generate_argv
      else s.generate_argv ++ [a] := by
  unfold parseArg capture
  cases hp : isPreOf ("--package=".data) a.data <;>
    cases ho : isPreOf ("--output=".data) a.data <;> simp [hp, ho]

theorem getLast?_cons_eq {α : Type} (v : α) (l : List α) :
    (v :: l).getLast? =
      match l.getLast? with
      | some w => some w
      | none => some v := by
  cases l with
  | nil => rfl
  | cons b bs =>
    rw [List.getLast?_cons_cons]
    cases h : (b :: bs).getLast? with
    | none => exact absurd (List.getLast?_eq_none_iff.mp h) (by simp)
    | some w => rfl

theorem foldl_flag_update (f : String → Option String) (args : List String)
    (init : Option String) :
    args.foldl (fun acc a => match f a with | some v => some v | none => acc) init =
      match (args.filterMap f).getLast? with
      | some v => some v
      | none => init := by
  induction args generalizing init with
  | nil => rfl
  | cons a as ih =>
    rw [List.foldl_cons, ih]
    cases h : f a with
    | none => rw [List.filterMap_cons_none h]
    | some v =>
      rw [List.filterMap_cons_some h, getLast?_cons_eq]
      cases (as.filterMap f).getLast? <;> rfl

theorem foldl_parseArg_package (args : List String) (s : ParseState) :
    (args.foldl parseArg s).package =
      args.foldl
        (fun acc a => match capture "--package=" a with | some v => some v | none => acc)
        s.package := by
  induction args generalizing s with
  | nil => rfl
  | cons a as ih => rw [List.foldl_cons, List.foldl_cons, ih, parseArg_package]

theorem foldl_parseArg_output (args : List String) (s : ParseState) :
    (args.foldl parseArg s).output =
      args.foldl
        (fun acc a => match capture "--output=" a with | some v => some v | none => acc)
        s.output := by
  induction args generalizing s with
  | nil => rfl
  | cons a as ih => rw [List.foldl_cons, List.foldl_cons, ih, parseArg_output]

theorem parseArgs_package (args : List String) :
    (parseArgs args).package = lastFlagValue "--package=" args := by
  rw [parseArgs, foldl_parseArg_package, foldl_flag_update, lastFlagValue]
  cases (args.filterMap (capture "--package=")).getLast? <;> rfl

theorem parseArgs_output (args : List String) :
    (parseArgs args).output = lastFlagValue "--output=" args := by
  rw [parseArgs, foldl_parseArg_output, foldl_flag_update, lastFlagValue]
  cases (args.filterMap (capture "--output=")).getLast? <;> rfl

theorem foldl_parseArg_generate_argv (args : List String) (s : ParseState) :
    (args.foldl parseArg s).generate_argv =
      s.generate_argv ++ args.filter (fun a => ! isPreOf ("--output=".data) a.data) := by
  induction args generalizing s with
  | nil => simp
  | cons a as ih =>
    rw [List.foldl_cons, ih, parseArg_generate_argv, List.filter_cons]
    cases h : isPreOf ("--output=".data) a.data <;> simp [h]

theorem parseArgs_generate_argv (args : List String) :
    (parseArgs args).generate_argv =
      args.filter (fun a => ! isPreOf ("--output=".data) a.data) := by
  rw [parseArgs, foldl_parseArg_generate_argv]
  rfl

/-! ### Lemmas about the driver as a whole -/

theorem runMain_config_error (engine : List String → Bool) (pyexe argv0 : String)
    (args : List String)
    (h : (parseArgs args).output = none ∨ (parseArgs args).output = some "" ∨
         (parseArgs args).package = none ∨ (parseArgs args).package = some "") :
    runMain engine pyexe argv0 args =
      { events := [], err := some "--output and --package not set" } := by
  cases ho : (parseArgs args).output with
  | none => simp [runMain, ho]
  | some out =>
    cases hp : (parseArgs args).package with
    | none => simp [runMain, ho, hp]
    | some pkg =>
      have hemp : out = "" ∨ pkg = "" := by
        rcases h with h | h | h | h
        · rw [ho] at h; cases h
        · rw [ho] at h; exact Or.inl (Option.some.inj h)
        · rw [hp] at h; cases h
        · rw [hp] at h; exact Or.inr (Option.some.inj h)
      simp [runMain, ho, hp, hemp]

theorem runMain_success (engine : List String → Bool) (pyexe argv0 : String)
    (args : List String) (out pkg : String)
    (ho : (parseArgs args).output = some out)
    (hp : (parseArgs args).package = some pkg)
    (hoe : ¬ out = "") (hpe : ¬ pkg = "")
    (h1 : engine (cmdline1 pyexe (dirname argv0) out (parseArgs args).generate_argv) = true)
    (h2 : engine (cmdline2 pyexe (dirname argv0) out (parseArgs args).generate_argv) = true) :
    runMain engine pyexe argv0 args =
      { events :=
          [Event.runGenerate (cmdline1 pyexe (dirname argv0) out (parseArgs args).generate_argv),
           Event.runGenerate (cmdline2 pyexe (dirname argv0) out (parseArgs args).generate_argv),
           Event.writeFile ((if dirname out = "" then "." else dirname out)
             ++ "/randomized_freepool_internal.s") sContent,
           Event.writeFile ((if dirname out = "" then "." else dirname out)
             ++ "/randomized_freepool_internal.go") (glueContent pkg)],
        err := none } := by
  simp [runMain, ho, hp, hoe, hpe, h1, h2]

theorem runMain_fail1 (engine : List String → Bool) (pyexe argv0 : String)
    (args : List String) (out pkg : String)
    (ho : (parseArgs args).output = some out)
    (hp : (parseArgs args).package = some pkg)
    (hoe : ¬ out = "") (hpe : ¬ pkg = "")
    (h1 : engine (cmdline1 pyexe (dirname argv0) out (parseArgs args).generate_argv) = false) :
    runMain engine pyexe argv0 args =
      { events :=
          [Event.runGenerate (cmdline1 pyexe (dirname argv0) out (parseArgs args).generate_argv)],
        err := some "subprocess.CalledProcessError" } := by
  simp [runMain, ho, hp, hoe, hpe, h1]

theorem runMain_fail2 (engine : List String → Bool) (pyexe argv0 : String)
    (args : List String) (out pkg : String)
    (ho : (parseArgs args).output = some out)
    (hp : (parseArgs args).package = some pkg)
    (hoe : ¬ out = "") (hpe : ¬ pkg = "")
    (h1 : engine (cmdline1 pyexe (dirname argv0) out (parseArgs args).generate_argv) = true)
    (h2 : engine (cmdline2 pyexe (dirname argv0) out (parseArgs args).generate_argv) = false) :
    runMain engine pyexe argv0 args =
      { events :=
          [Event.runGenerate (cmdline1 pyexe (dirname argv0) out (parseArgs args).generate_argv),
           Event.runGenerate (cmdline2 pyexe (dirname argv0) out (parseArgs args).generate_argv)],
        err := some "subprocess.CalledProcessError" } := by
  simp [runMain, ho, hp, hoe, hpe, h1, h2]

/-! ### Path lemmas -/

theorem isPreOf_append_self (p r : List Char) : isPreOf p (p ++ r) = true := by
  induction p with
  | nil => rfl
  | cons c cs ih => simp [isPreOf, ih]

theorem dirnameL_append (p s : List Char) (h : ∀ c ∈ s, (c == '/') = false) :
    dirnameL (p ++ s) = dirnameL p := by
  unfold dirnameL
  rw [List.reverse_append, List.dropWhile_append_of_pos]
  intro a ha
  rw [List.mem_reverse] at ha
  simp [h a ha]

theorem dirname_append (out suf : String) (h : ∀ c ∈ suf.data, (c == '/') = false) :
    dirname (out ++ suf) = dirname out := by
  unfold dirname
  rw [String.data_append, dirnameL_append _ _ h]

/-! ### Lemmas about the modelled engine output -/

theorem flagValue_self (pre rest : String) :
    (if isPreOf pre.data (pre ++ rest).data then
       some (String.mk ((pre ++ rest).data.drop pre.data.length))
     else none) = some rest := by
  rw [String.data_append, if_pos (isPreOf_append_self _ _), List.drop_left]

theorem engineOutputFile_cmd (pyexe gen tpl out suf : String) (gargs : List String)
    (hpy : isPreOf ("--output=".data) pyexe.data = false)
    (hgen : isPreOf ("--output=".data) gen.data = false)
    (htpl : isPreOf ("--output=".data) tpl.data = false)
    (hg : ∀ a ∈ gargs, isPreOf ("--output=".data) a.data = false) :
    engineOutputFile ([pyexe, gen, "--output=" ++ out ++ suf] ++ gargs ++ [tpl])
      = some (out ++ suf) := by
  have hgnil :
      gargs.filterMap (fun a =>
        if isPreOf ("--output=".data) a.data then
          some (String.mk (a.data.drop ("--output=".data.length)))
        else none) = [] := by
    rw [List.filterMap_eq_nil_iff]
    intro a ha
    rw [if_neg]
    simp [hg a ha]
  unfold engineOutputFile
  rw [List.filterMap_append, List.filterMap_append, hgnil, String.append_assoc]
  simp only [List.filterMap_cons, List.filterMap_nil, hpy, hgen, htpl,
    Bool.false_eq_true, if_false, ite_false, flagValue_self,
    List.nil_append, List.append_nil]
  rfl

theorem glueContent_inj (p q : String) : glueContent p = glueContent q ↔ p = q := by
  constructor
  · intro h
    have hd := congrArg String.data h
    simp only [glueContent, String.data_append, List.append_assoc] at hd
    have h1 := List.append_cancel_left hd
    have h2 := List.append_cancel_left h1
    have h3 := List.append_cancel_right h2
    exact String.ext h3
  · intro h
    rw [h]

end FreepoolGen


/-! ## The claims -/

namespace FreepoolGen

/-- C1: for every invocation in which the `--package` flag or the
`--output` flag is missing or carries an empty value, the driver raises
the fatal configuration error, invokes no template expansion, and writes
zero output files. -/
theorem missing_flag_is_fatal_and_silent
    (engine : List String → Bool) (pyexe argv0 : String) (args : List String)
    (h : lastFlagValue "--package=" args = none ∨ lastFlagValue "--package=" args = some ""
       ∨ lastFlagValue "--output=" args = none ∨ lastFlagValue "--output=" args = some "") :
    runMain engine pyexe argv0 args =
      { events := [], err := some "--output and --package not set" }
    ∧ generateCalls (runMain engine pyexe argv0 args).events = []
    ∧ writesOf (runMain engine pyexe argv0 args).events = []
    ∧ producedFiles (runMain engine pyexe argv0 args).events = [] := by
  have h' : (parseArgs args).output = none ∨ (parseArgs args).output = some ""
      ∨ (parseArgs args).package = none ∨ (parseArgs args).package = some "" := by
    rw [parseArgs_output, parseArgs_package]
    tauto
  rw [runMain_config_error engine pyexe argv0 args h']
  exact ⟨rfl, rfl, rfl, rfl⟩

/-- Witness for C1: a concrete invocation with no `--output` flag. -/
theorem missing_flag_is_fatal_and_silent_witness :
    runMain (fun _ => true) "python3" "gtl/generate_randomized_freepool.py" ["--package=pool"] =
      { events := [], err := some "--output and --package not set" } :=
  (missing_flag_is_fatal_and_silent (fun _ => true) "python3"
    "gtl/generate_randomized_freepool.py" ["--package=pool"]
    (Or.inr (Or.inr (Or.inl (by decide))))).1

/-- C2 as stated is false on the code: the driver forwards every argument
that is not an `--output=` flag, so a `--package=` flag IS forwarded to
the engine (the scanning loop has no elif, and only the `--output=` match
guards the append).  Concretely, with arguments
`["--package=foo", "--output=bar", "-DELEM=int"]` the forwarded list is
`["--package=foo", "-DELEM=int"]`, not the `["-DELEM=int"]` the claim
demands. -/
theorem package_flag_forwarded_cex :
    ¬ ((parseArgs ["--package=foo", "--output=bar", "-DELEM=int"]).generate_argv
        = List.filter
            (fun a => ! (isPreOf ("--package=".data) a.data || isPreOf ("--output=".data) a.data))
            ["--package=foo", "--output=bar", "-DELEM=int"]) := by
  decide

/-- C2 amended: exactly the arguments that are not `--output=` flags are
forwarded, verbatim and in their original order, to each of the two
engine invocations; the consumed `--output=` flag is not forwarded, but a
`--package=` flag is forwarded like any other argument. -/
theorem forwarded_args_are_non_output_args (pyexe gtl out : String) (args : List String) :
    (parseArgs args).generate_argv
      = args.filter (fun a => ! isPreOf ("--output=".data) a.data)
    ∧ cmdline1 pyexe gtl out (parseArgs args).generate_argv
        = [pyexe, pathJoin gtl "generate.py", "--output=" ++ out ++ ".go"]
          ++ args.filter (fun a => ! isPreOf ("--output=".data) a.data)
          ++ [pathJoin gtl "randomized_freepool.go.tpl"]
    ∧ cmdline2 pyexe gtl out (parseArgs args).generate_argv
        = [pyexe, pathJoin gtl "generate.py", "--output=" ++ out ++ "_race.go"]
          ++ args.filter (fun a => ! isPreOf ("--output=".data) a.data)
          ++ [pathJoin gtl "randomized_freepool_race.go.tpl"] := by
  refine ⟨parseArgs_generate_argv args, ?_, ?_⟩ <;>
    simp only [cmdline1, cmdline2, parseArgs_generate_argv]

/-- C9: the last occurrence of each of the two flags determines the value
used, and a final occurrence with an empty value is treated as not
supplied, triggering the fatal missing-parameter error. -/
theorem last_flag_wins_and_empty_is_missing :
    (∀ args : List String,
        (parseArgs args).package = lastFlagValue "--package=" args
      ∧ (parseArgs args).output = lastFlagValue "--output=" args)
    ∧ (∀ (engine : List String → Bool) (pyexe argv0 : String) (args : List String),
        lastFlagValue "--package=" args = some "" ∨ lastFlagValue "--output=" args = some "" →
        runMain engine pyexe argv0 args =
          { events := [], err := some "--output and --package not set" }) := by
  constructor
  · intro args
    exact ⟨parseArgs_package args, parseArgs_output args⟩
  · intro engine pyexe argv0 args h
    apply runMain_config_error
    rw [parseArgs_output, parseArgs_package]
    tauto

/-- Witness for C9: with two `--package=` flags the later one wins, and a
trailing empty `--output=` flag ends in the fatal configuration error. -/
theorem last_flag_wins_and_empty_is_missing_witness :
    ((parseArgs ["--package=a", "--package=b"]).package
        = lastFlagValue "--package=" ["--package=a", "--package=b"]
      ∧ (parseArgs ["--package=a", "--package=b"]).output
        = lastFlagValue "--output=" ["--package=a", "--package=b"])
    ∧ runMain (fun _ => true) "python3" "gtl/generate_randomized_freepool.py"
        ["--package=p", "--output=x", "--output="] =
        { events := [], err := some "--output and --package not set" } :=
  ⟨last_flag_wins_and_empty_is_missing.1 ["--package=a", "--package=b"],
   last_flag_wins_and_empty_is_missing.2 (fun _ => true) "python3"
     "gtl/generate_randomized_freepool.py" ["--package=p", "--output=x", "--output="]
     (Or.inr (by decide))⟩

end FreepoolGen

namespace FreepoolGen

/-- C3: with both required flags set (to nonempty values) and both
expansions succeeding, the driver invokes the template-expansion engine
exactly twice: first with output path `<output>.go` and the optimized
template `randomized_freepool.go.tpl` (see `cmdline1`), then with output
path `<output>_race.go` and the race-instrumented template
`randomized_freepool_race.go.tpl` (see `cmdline2`). -/
theorem two_engine_invocations
    (engine : List String → Bool) (pyexe argv0 : String) (args : List String)
    (out pkg : String)
    (ho : (parseArgs args).output = some out)
    (hp : (parseArgs args).package = some pkg)
    (hoe : ¬ out = "") (hpe : ¬ pkg = "")
    (h1 : engine (cmdline1 pyexe (dirname argv0) out (parseArgs args).generate_argv) = true)
    (h2 : engine (cmdline2 pyexe (dirname argv0) out (parseArgs args).generate_argv) = true) :
    generateCalls (runMain engine pyexe argv0 args).events =
      [cmdline1 pyexe (dirname argv0) out (parseArgs args).generate_argv,
       cmdline2 pyexe (dirname argv0) out (parseArgs args).generate_argv] := by
  rw [runMain_success engine pyexe argv0 args out pkg ho hp hoe hpe h1 h2]
  rfl

/-- Witness for C3 at a concrete invocation. -/
theorem two_engine_invocations_witness :
    generateCalls (runMain (fun _ => true) "python3" "gtl/gen.py"
        ["--package=pool", "--output=lib/pool", "-DELEM=int"]).events =
      [cmdline1 "python3" (dirname "gtl/gen.py") "lib/pool"
         (parseArgs ["--package=pool", "--output=lib/pool", "-DELEM=int"]).generate_argv,
       cmdline2 "python3" (dirname "gtl/gen.py") "lib/pool"
         (parseArgs ["--package=pool", "--output=lib/pool", "-DELEM=int"]).generate_argv] :=
  two_engine_invocations (fun _ => true) "python3" "gtl/gen.py"
    ["--package=pool", "--output=lib/pool", "-DELEM=int"] "lib/pool" "pool"
    (by decide) (by decide) (by decide) (by decide) rfl rfl

/-- C4: with both required flags set, a failing expansion propagates
fatally and nothing further happens: if the first `check_call` fails the
second is never invoked and neither auxiliary file is written; if the
second fails, both invocations appear but still no file is written. -/
theorem engine_failure_propagates
    (engine : List String → Bool) (pyexe argv0 : String) (args : List String)
    (out pkg : String)
    (ho : (parseArgs args).output = some out)
    (hp : (parseArgs args).package = some pkg)
    (hoe : ¬ out = "") (hpe : ¬ pkg = "") :
    (engine (cmdline1 pyexe (dirname argv0) out (parseArgs args).generate_argv) = false →
      runMain engine pyexe argv0 args =
        { events := [Event.runGenerate
            (cmdline1 pyexe (dirname argv0) out (parseArgs args).generate_argv)],
          err := some "subprocess.CalledProcessError" }
      ∧ writesOf (runMain engine pyexe argv0 args).events = [])
    ∧ (engine (cmdline1 pyexe (dirname argv0) out (parseArgs args).generate_argv) = true →
       engine (cmdline2 pyexe (dirname argv0) out (parseArgs args).generate_argv) = false →
      runMain engine pyexe argv0 args =
        { events := [Event.runGenerate
            (cmdline1 pyexe (dirname argv0) out (parseArgs args).generate_argv),
            Event.runGenerate
            (cmdline2 pyexe (dirname argv0) out (parseArgs args).generate_argv)],
          err := some "subprocess.CalledProcessError" }
      ∧ writesOf (runMain engine pyexe argv0 args).events = []) := by
  constructor
  · intro h1
    have hm := runMain_fail1 engine pyexe argv0 args out pkg ho hp hoe hpe h1
    rw [hm]
    exact ⟨rfl, rfl⟩
  · intro h1 h2
    have hm := runMain_fail2 engine pyexe argv0 args out pkg ho hp hoe hpe h1 h2
    rw [hm]
    exact ⟨rfl, rfl⟩

/-- Witness for C4: with an engine that always fails, the concrete run
performs only the first invocation and writes nothing. -/
theorem engine_failure_propagates_witness :
    runMain (fun _ => false) "python3" "gtl/gen.py" ["--package=pool", "--output=lib/pool"] =
      { events := [Event.runGenerate
          (cmdline1 "python3" (dirname "gtl/gen.py") "lib/pool"
            (parseArgs ["--package=pool", "--output=lib/pool"]).generate_argv)],
        err := some "subprocess.CalledProcessError" }
    ∧ writesOf (runMain (fun _ => false) "python3" "gtl/gen.py"
        ["--package=pool", "--output=lib/pool"]).events = [] :=
  (engine_failure_propagates (fun _ => false) "python3" "gtl/gen.py"
    ["--package=pool", "--output=lib/pool"] "lib/pool" "pool"
    (by decide) (by decide) (by decide) (by decide)).1 rfl

end FreepoolGen

namespace FreepoolGen

/-- C5: a successful invocation produces exactly four files: the engine
writes `<output>.go` and `<output>_race.go` (one file per invocation, at
the path of its `--output=` flag, per the spec contract for the engine),
and the driver writes `randomized_freepool_internal.s` and
`randomized_freepool_internal.go` into the directory component of the
output path.  The side conditions state that none of the interpreter,
script and template paths itself spells an `--output=` flag. -/
theorem four_files_produced
    (engine : List String → Bool) (pyexe argv0 : String) (args : List String)
    (out pkg : String)
    (ho : (parseArgs args).output = some out)
    (hp : (parseArgs args).package = some pkg)
    (hoe : ¬ out = "") (hpe : ¬ pkg = "")
    (h1 : engine (cmdline1 pyexe (dirname argv0) out (parseArgs args).generate_argv) = true)
    (h2 : engine (cmdline2 pyexe (dirname argv0) out (parseArgs args).generate_argv) = true)
    (hpy : isPreOf ("--output=".data) pyexe.data = false)
    (hgen : isPreOf ("--output=".data) (pathJoin (dirname argv0) "generate.py").data = false)
    (htpl1 : isPreOf ("--output=".data)
      (pathJoin (dirname argv0) "randomized_freepool.go.tpl").data = false)
    (htpl2 : isPreOf ("--output=".data)
      (pathJoin (dirname argv0) "randomized_freepool_race.go.tpl").data = false) :
    producedFiles (runMain engine pyexe argv0 args).events =
      [out ++ ".go", out ++ "_race.go",
       (if dirname out = "" then "." else dirname out) ++ "/randomized_freepool_internal.s",
       (if dirname out = "" then "." else dirname out) ++ "/randomized_freepool_internal.go"] := by
  have hg : ∀ a ∈ (parseArgs args).generate_argv, isPreOf ("--output=".data) a.data = false := by
    rw [parseArgs_generate_argv]
    intro a ha
    have hpred := List.of_mem_filter ha
    simpa using hpred
  have e1 := engineOutputFile_cmd pyexe (pathJoin (dirname argv0) "generate.py")
    (pathJoin (dirname argv0) "randomized_freepool.go.tpl") out ".go"
    (parseArgs args).generate_argv hpy hgen htpl1 hg
  have e2 := engineOutputFile_cmd pyexe (pathJoin (dirname argv0) "generate.py")
    (pathJoin (dirname argv0) "randomized_freepool_race.go.tpl") out "_race.go"
    (parseArgs args).generate_argv hpy hgen htpl2 hg
  rw [runMain_success engine pyexe argv0 args out pkg ho hp hoe hpe h1 h2]
  simp only [producedFiles, cmdline1, cmdline2, List.foldr_cons, List.foldr_nil, e1, e2]

/-- Witness for C5 at a concrete invocation with a directory component. -/
theorem four_files_produced_witness :
    producedFiles (runMain (fun _ => true) "python3" "gtl/gen.py"
        ["--package=pool", "--output=lib/pool"]).events =
      ["lib/pool" ++ ".go", "lib/pool" ++ "_race.go",
       (if dirname "lib/pool" = "" then "." else dirname "lib/pool")
         ++ "/randomized_freepool_internal.s",
       (if dirname "lib/pool" = "" then "." else dirname "lib/pool")
         ++ "/randomized_freepool_internal.go"] :=
  four_files_produced (fun _ => true) "python3" "gtl/gen.py"
    ["--package=pool", "--output=lib/pool"] "lib/pool" "pool"
    (by decide) (by decide) (by decide) (by decide) rfl rfl
    (by decide) (by decide) (by decide) (by decide)

/-- C6: across any two successful invocations the driver writes the same
two auxiliary contents: the `.s` stub content is the constant `sContent`
(depending on no input), and the glue content is `glueContent` of the
supplied package value, so the glue files agree exactly when the two
invocations supply the same `--package` value and otherwise differ only
in the interpolated package name of the package declaration. -/
theorem aux_files_invariance
    (eng1 eng2 : List String → Bool) (py1 py2 av1 av2 : String)
    (args1 args2 : List String) (out1 pkg1 out2 pkg2 : String)
    (ho1 : (parseArgs args1).output = some out1)
    (hp1 : (parseArgs args1).package = some pkg1)
    (hoe1 : ¬ out1 = "") (hpe1 : ¬ pkg1 = "")
    (h11 : eng1 (cmdline1 py1 (dirname av1) out1 (parseArgs args1).generate_argv) = true)
    (h21 : eng1 (cmdline2 py1 (dirname av1) out1 (parseArgs args1).generate_argv) = true)
    (ho2 : (parseArgs args2).output = some out2)
    (hp2 : (parseArgs args2).package = some pkg2)
    (hoe2 : ¬ out2 = "") (hpe2 : ¬ pkg2 = "")
    (h12 : eng2 (cmdline1 py2 (dirname av2) out2 (parseArgs args2).generate_argv) = true)
    (h22 : eng2 (cmdline2 py2 (dirname av2) out2 (parseArgs args2).generate_argv) = true) :
    (writesOf (runMain eng1 py1 av1 args1).events).map Prod.snd
      = [sContent, glueContent pkg1]
    ∧ (writesOf (runMain eng2 py2 av2 args2).events).map Prod.snd
      = [sContent, glueContent pkg2]
    ∧ (glueContent pkg1 = glueContent pkg2 ↔ pkg1 = pkg2)
    ∧ glueContent pkg1 = gluePre ++ "package " ++ pkg1 ++ glueSuf := by
  rw [runMain_success eng1 py1 av1 args1 out1 pkg1 ho1 hp1 hoe1 hpe1 h11 h21,
      runMain_success eng2 py2 av2 args2 out2 pkg2 ho2 hp2 hoe2 hpe2 h12 h22]
  exact ⟨rfl, rfl, glueContent_inj pkg1 pkg2, rfl⟩

/-- Witness for C6: two concrete successful runs with different package
values. -/
theorem aux_files_invariance_witness :
    (writesOf (runMain (fun _ => true) "python3" "gtl/gen.py"
        ["--package=alpha", "--output=a/x"]).events).map Prod.snd
      = [sContent, glueContent "alpha"]
    ∧ (writesOf (runMain (fun _ => true) "python3" "gtl/gen.py"
        ["--package=beta", "--output=b/y"]).events).map Prod.snd
      = [sContent, glueContent "beta"]
    ∧ (glueContent "alpha" = glueContent "beta" ↔ ("alpha" : String) = "beta")
    ∧ glueContent "alpha" = gluePre ++ "package " ++ "alpha" ++ glueSuf :=
  aux_files_invariance (fun _ => true) (fun _ => true) "python3" "python3"
    "gtl/gen.py" "gtl/gen.py" ["--package=alpha", "--output=a/x"]
    ["--package=beta", "--output=b/y"] "a/x" "alpha" "b/y" "beta"
    (by decide) (by decide) (by decide) (by decide) rfl rfl
    (by decide) (by decide) (by decide) (by decide) rfl rfl

/-- C10: a successful invocation writes the two auxiliary files into the
directory component of the output path, written `"."` when that component
is empty; the two pool sources land in the same directory, since
appending `.go` or `_race.go` (which contain no slash) does not change
the directory component, and `""` versus `"."` differ only in
representation (`dirLocation` canonicalises both to `"."`). -/
theorem aux_dir_location
    (engine : List String → Bool) (pyexe argv0 : String) (args : List String)
    (out pkg : String)
    (ho : (parseArgs args).output = some out)
    (hp : (parseArgs args).package = some pkg)
    (hoe : ¬ out = "") (hpe : ¬ pkg = "")
    (h1 : engine (cmdline1 pyexe (dirname argv0) out (parseArgs args).generate_argv) = true)
    (h2 : engine (cmdline2 pyexe (dirname argv0) out (parseArgs args).generate_argv) = true) :
    (writesOf (runMain engine pyexe argv0 args).events).map Prod.fst =
      [dirLocation (dirname out) ++ "/randomized_freepool_internal.s",
       dirLocation (dirname out) ++ "/randomized_freepool_internal.go"]
    ∧ dirname (out ++ ".go") = dirname out
    ∧ dirname (out ++ "_race.go") = dirname out
    ∧ (dirname out = "" → dirLocation (dirname out) = ".")
    ∧ (¬ dirname out = "" → dirLocation (dirname out) = dirname out) := by
  rw [runMain_success engine pyexe argv0 args out pkg ho hp hoe hpe h1 h2]
  refine ⟨rfl, dirname_append out ".go" (by decide),
    dirname_append out "_race.go" (by decide), ?_, ?_⟩
  · intro h
    simp [dirLocation, h]
  · intro h
    simp [dirLocation, h]

/-- Witness for C10 at a concrete output path with no directory
component: the auxiliary files go to `"."`. -/
theorem aux_dir_location_witness :
    (writesOf (runMain (fun _ => true) "python3" "gtl/gen.py"
        ["--package=pool", "--output=pool"]).events).map Prod.fst =
      [dirLocation (dirname "pool") ++ "/randomized_freepool_internal.s",
       dirLocation (dirname "pool") ++ "/randomized_freepool_internal.go"]
    ∧ dirname ("pool" ++ ".go") = dirname "pool"
    ∧ dirname ("pool" ++ "_race.go") = dirname "pool"
    ∧ (dirname "pool" = "" → dirLocation (dirname "pool") = ".")
    ∧ (¬ dirname "pool" = "" → dirLocation (dirname "pool") = dirname "pool") :=
  aux_dir_location (fun _ => true) "python3" "gtl/gen.py"
    ["--package=pool", "--output=pool"] "pool" "pool"
    (by decide) (by decide) (by decide) (by decide) rfl rfl

end FreepoolGen

namespace FreepoolGen

/-- C7 is false as stated: the low-level stub file written by the driver
is NOT empty; the source writes a fixed comment block into it. -/
theorem stub_not_empty_cex : ¬ sContent = "" := by
  decide

/-- C7 amended: the stub file content is a fixed nonempty comment block:
every line is blank or a `//` line comment, so the file is empty of any
assembly code, serving purely as a dummy to make the toolchain honor the
linkage directives. -/
theorem stub_only_comment_lines :
    (splitLinesL sContent.data).all (fun l => l.isEmpty || isPreOf ("//".data) l) = true
    ∧ ¬ sContent.data = [] :=
  ⟨by decide, by decide⟩

/-- C8: the glue file content is the fixed template around the supplied
package value: the prefix ends with a newline so that line 2 is the
package declaration `package <pkg>`; the template part declares exactly
three functions, `runtime_procPin() int`, `runtime_procUnpin()` and
`fastrandn(n uint32) uint32`, exactly three `go:linkname` directives
naming their runtime bindings, and each declaration is directly preceded
by its `go:linkname` directive. -/
theorem glue_package_and_linkname_decls (pkg : String) :
    glueContent pkg = gluePre ++ "package " ++ pkg ++ glueSuf
    ∧ gluePre.data.getLast? = some (Char.ofNat 10)
    ∧ (splitLinesL gluePre.data).filter (fun l => isPreOf ("func ".data) l) = []
    ∧ (splitLinesL glueSuf.data).filter (fun l => isPreOf ("func ".data) l)
        = ["func runtime_procPin() int".data, "func runtime_procUnpin()".data,
           "func fastrandn(n uint32) uint32".data]
    ∧ (splitLinesL gluePre.data).filter (fun l => isPreOf ("//go:linkname".data) l) = []
    ∧ (splitLinesL glueSuf.data).filter (fun l => isPreOf ("//go:linkname".data) l)
        = ["//go:linkname runtime_procPin sync.runtime_procPin".data,
           "//go:linkname runtime_procUnpin sync.runtime_procUnpin".data,
           "//go:linkname fastrandn sync.fastrandn".data]
    ∧ hasSubL ("//go:linkname runtime_procPin sync.runtime_procPin\n//go:nosplit\nfunc runtime_procPin() int\n".data)
        glueSuf.data = true
    ∧ hasSubL ("//go:linkname runtime_procUnpin sync.runtime_procUnpin\n//go:nosplit\nfunc runtime_procUnpin()\n".data)
        glueSuf.data = true
    ∧ hasSubL ("//go:linkname fastrandn sync.fastrandn\nfunc fastrandn(n uint32) uint32\n".data)
        glueSuf.data = true :=
  ⟨rfl, by decide, by decide, by decide, by decide, by decide, by decide, by decide, by decide⟩

end FreepoolGen
